import Mathlib

/-!
Shallow embedding of the Zero2WTestMax repository (src/src/main.cpp): a
command-line tool that drives a chain of MAX7219 display modules over SPI
and persists each module's state in an INI-style configuration store.

The repository's own sources contain only `main.cpp`; the chain-device
class (`LocalMAX7219`), the INI store (`util::IniState`) and the per-module
`loadState`/`saveState` helpers are declared in headers that are not part
of the repository's sources.  Those operations are modelled from the spec
(design document), as marked on each definition; `main`'s own control flow
(argument handling, validation, ordering of calls) is translated directly
from `main.cpp`.
-/

/-- One module's runtime state.  Modelled from the spec: the chain device
code (`LocalMAX7219`) is not among the repository's sources; the fields
follow the spec's data model, namely `value`, `hasValue`, `brightness`,
`power` and the per-module `dirty` flag. -/
structure ModuleState where
  value : Int
  hasValue : Bool
  brightness : Int
  power : Bool
  dirty : Bool
deriving DecidableEq, Repr

/-- Modelled from the spec: the spec fixes no numeric default for
brightness, only that a module starts at "default brightness". -/
def defaultBrightness : Int := 7

/-- Modelled from the spec: a fresh module is "unset value, default
brightness, powered on", and clean. -/
def defaultModule : ModuleState :=
  { value := 0, hasValue := false, brightness := defaultBrightness,
    power := true, dirty := false }

/-- Modelled from the spec: the chain is "created empty, sized from
persistent configuration"; the device's constructor-time module count is
not fixed by the sources, so we take one module as the default. -/
def defaultNumDevices : Nat := 1

/-- Observable events of one process run, used to state ordering
properties of `main`'s control flow. -/
inductive Event where
  | loadStore
  | loadModule (i : Nat)
  | markAllClean
  | markAllDirty
  | deviceReset
  | mutate (i : Nat)
  | saveModule (i : Nat)
  | storeMarkDirty
  | storeSave
  | fileWrite
  | flush
deriving DecidableEq, Repr

def isFlush : Event → Bool
  | Event.flush => true
  | _ => false

def isStoreSave : Event → Bool
  | Event.storeSave => true
  | _ => false

def isStoreMarkDirty : Event → Bool
  | Event.storeMarkDirty => true
  | _ => false

def isFileWrite : Event → Bool
  | Event.fileWrite => true
  | _ => false

def isMutate : Event → Bool
  | Event.mutate _ => true
  | _ => false

def isLoadModule : Event → Bool
  | Event.loadModule _ => true
  | _ => false

/-- `firstThen p q tr` holds when `tr` contains a `p`-event and some
`q`-event occurs strictly after the first such `p`-event. -/
def firstThen (p q : Event → Bool) : List Event → Bool
  | [] => false
  | e :: tr => if p e then tr.any q else firstThen p q tr

/-- Value accumulated by C's `atoi` over a digit run (stops at the first
non-digit). -/
def digitsVal : List Char → Nat → Nat
  | [], acc => acc
  | c :: cs, acc => if c.isDigit then digitsVal cs (acc * 10 + (c.toNat - 48)) else acc

/-- C `atoi` on a character list: skip leading whitespace, optional sign,
then a digit run; `0` when no digits are found. -/
def atoiChars : List Char → Int
  | [] => 0
  | c :: cs =>
    if c.isWhitespace then atoiChars cs
    else if c = '-' then - (digitsVal cs 0 : Int)
    else if c = '+' then (digitsVal cs 0 : Int)
    else (digitsVal (c :: cs) 0 : Int)

/-- C `atoi`, as used by `main.cpp` on module numbers and values. -/
def atoi (s : String) : Int := atoiChars s.data

/-- `moduleName` from `main.cpp`:
`return "display:" + std::to_string(num+1);`. -/
def moduleName (num : Int) : String := "display:" ++ toString (num + 1)

/-! ## The persistent store (`util::IniState`)

Modelled from the spec: a sectioned key/value text store with existence
checks, read, write, explicit dirty-marking, and a save that only performs
its file I/O when the global dirty flag is set. -/

/-- One INI section: an association list from option names to values. -/
abbrev IniSection := List (String × String)

/-- The in-memory persistent store: named sections plus the single global
dirty flag.  Modelled from the spec. -/
structure Config where
  sections : List (String × IniSection)
  dirty : Bool
deriving DecidableEq, Repr

def lookupKey (sec : IniSection) (k : String) : Option String :=
  (sec.find? (fun p => p.1 == k)).map (fun p => p.2)

/-- Write one key of a section.  The newest binding shadows older ones and
`lookupKey` always returns the newest, so this models in-place update of
the textual store's option. -/
def setKey (sec : IniSection) (k v : String) : IniSection :=
  (k, v) :: sec

def hasSection (cfg : Config) (name : String) : Bool :=
  cfg.sections.any (fun p => p.1 == name)

def getSection (cfg : Config) (name : String) : IniSection :=
  ((cfg.sections.find? (fun p => p.1 == name)).map (fun p => p.2)).getD []

def hasKey (cfg : Config) (name k : String) : Bool :=
  (lookupKey (getSection cfg name) k).isSome

def getKeyD (cfg : Config) (name k : String) : String :=
  (lookupKey (getSection cfg name) k).getD ""

/-- Write one key in a named section, creating the section if absent.  As
with `setKey`, the newest section shadows older ones of the same name. -/
def writeKey (cfg : Config) (name k v : String) : Config :=
  { cfg with sections := (name, setKey (getSection cfg name) k v) :: cfg.sections }

/-- Store-level save.  Modelled from the spec: "`save()` -> writes only if
dirty"; the file write is recorded as an event. -/
def storeSave (cfg : Config) : Config × List Event :=
  if cfg.dirty then ({ cfg with dirty := false }, [Event.fileWrite])
  else (cfg, [])

/-! ## The chain device (`LocalMAX7219`)

Modelled from the spec (the device class is not among the repository's
sources): per-module mutators validate nothing here because `main.cpp`
validates indices and levels before every call; out-of-range accesses are
structurally no-ops of `List.set`. -/

def modifyAt (ch : List ModuleState) (i : Nat) (f : ModuleState → ModuleState) :
    List ModuleState :=
  match ch[i]? with
  | some m => ch.set i (f m)
  | none => ch

/-- Modelled from the spec: `setValue` "sets `value`, sets `hasValue=true`,
marks the module dirty unless the new value equals the previous rendered
value AND `hasValue` was already true". -/
def setNumber (ch : List ModuleState) (i : Nat) (v : Int) : List ModuleState :=
  modifyAt ch i (fun m =>
    { m with value := v, hasValue := true,
             dirty := if m.hasValue = true ∧ m.value = v then m.dirty else true })

/-- Modelled from the spec: `clear` "sets `hasValue=false`, marks dirty
unless already clear". -/
def clearModule (ch : List ModuleState) (i : Nat) : List ModuleState :=
  modifyAt ch i (fun m =>
    { m with hasValue := false, dirty := if m.hasValue = true then true else m.dirty })

/-- Modelled from the spec: `setBrightness` "marks dirty if changed"
(level validation is performed by `main.cpp` before the call). -/
def setBrightness (ch : List ModuleState) (i : Nat) (v : Int) : List ModuleState :=
  modifyAt ch i (fun m =>
    { m with brightness := v, dirty := if m.brightness = v then m.dirty else true })

/-- Modelled from the spec: `setPower` "toggles power state; marks dirty if
changed". -/
def setPower (ch : List ModuleState) (i : Nat) (b : Bool) : List ModuleState :=
  modifyAt ch i (fun m =>
    { m with power := b, dirty := if m.power = b then m.dirty else true })

/-- Modelled from the spec: `markAllDirty` "bulk-sets every module's dirty
flag without touching value/brightness/power" (`max->setDirty()`). -/
def setDirty (ch : List ModuleState) : List ModuleState :=
  ch.map (fun m => { m with dirty := true })

/-- Modelled from the spec: `markAllClean`, same but clearing the flags
(`max->setClean()`). -/
def setClean (ch : List ModuleState) : List ModuleState :=
  ch.map (fun m => { m with dirty := false })

/-- Modelled from the spec: `reset` is not specified beyond being a
chain-wide command; we take it to restore every module to its default state
and mark it dirty.  No claim depends on its per-module effect. -/
def resetChain (ch : List ModuleState) : List ModuleState :=
  ch.map (fun _ => { defaultModule with dirty := true })

/-- `numDevices(count)`: resize, truncating or extending with default
modules; existing contents are untouched. -/
def resize (n : Nat) (ch : List ModuleState) : List ModuleState :=
  ch.take n ++ List.replicate (n - ch.length) defaultModule

/-- The chain as constructed, before sizing from the store. -/
def initialChain : List ModuleState := List.replicate defaultNumDevices defaultModule

/-- One register frame of the chain-wide bus transaction: the rendered
per-module content (value/blank, brightness nibble, power bit).  The dirty
flag is not part of the frame. -/
structure Frame where
  value : Int
  rendered : Bool
  brightness : Int
  power : Bool
deriving DecidableEq, Repr

def frameOf (m : ModuleState) : Frame :=
  { value := m.value, rendered := m.hasValue, brightness := m.brightness, power := m.power }

/-- Modelled from the spec: `flush` serializes every module's current state
in index order, dirty or not, into one bus transaction. -/
def framesOf (ch : List ModuleState) : List Frame := ch.map frameOf

/-! ## The state synchronizer (`loadState` / `saveState`)

Modelled from the spec: these helpers live in `util/max7219-state.hpp`,
which is not among the repository's sources. -/

/-- Modelled from the spec: `load` "reads section's value/brightness/power
keys (only keys present are applied); calls Chain Device mutators", plus
the flag distinguishing "unset" from "zero". -/
def loadState (sec : IniSection) (ch : List ModuleState) (i : Nat) : List ModuleState :=
  let ch1 := match lookupKey sec "value" with
    | some s => setNumber ch i (atoi s)
    | none => ch
  let ch2 := match lookupKey sec "hasValue" with
    | some s => if s == "false" then clearModule ch1 i else ch1
    | none => ch1
  let ch3 := match lookupKey sec "brightness" with
    | some s => setBrightness ch2 i (atoi s)
    | none => ch2
  match lookupKey sec "power" with
    | some s => setPower ch3 i (s != "false")
    | none => ch3

/-- Modelled from the spec: `save` "writes current module
value/hasValue/brightness/power back into the given section's keys,
unconditionally". -/
def saveState (cfg : Config) (name : String) (ch : List ModuleState) (i : Nat) : Config :=
  let m := ch.getD i defaultModule
  let cfg1 := writeKey cfg name "value" (toString m.value)
  let cfg2 := writeKey cfg1 name "hasValue" (if m.hasValue then "true" else "false")
  let cfg3 := writeKey cfg2 name "brightness" (toString m.brightness)
  writeKey cfg3 name "power" (if m.power then "true" else "false")

/-! ## `main.cpp` control flow -/

/-- Module count after startup: `main.cpp` reads
`config["interface:spi-0"]["modules"]` with `atoi` when present and calls
`max->numDevices(count)`; otherwise the chain keeps its default size. -/
def numModules (cfg : Config) : Nat :=
  if hasKey cfg "interface:spi-0" "modules"
  then (atoi (getKeyD cfg "interface:spi-0" "modules")).toNat
  else defaultNumDevices

/-- The startup loop of `main.cpp` lines 88-94: for each index below the
module count, load the module's section when it exists. -/
def loadAll (cfg : Config) (ch : List ModuleState) : List ModuleState :=
  (List.range ch.length).foldl
    (fun (acc : List ModuleState) (i : Nat) =>
      if hasSection cfg (moduleName (i : Int))
      then loadState (getSection cfg (moduleName (i : Int))) acc i
      else acc)
    ch

/-- The chain state right after startup (sizing, per-module loads, then
`max->setClean()` at line 97).  When the `modules` key is absent,
`numModules` is the default size and `resize` leaves `initialChain`
unchanged, so the unconditional `resize` matches `main.cpp`'s conditional
call. -/
def startupChain (cfg : Config) : List ModuleState :=
  setClean (loadAll cfg (resize (numModules cfg) initialChain))

/-- The `loadModule` events of the startup loop: one per existing section,
in index order. -/
def loadEvents (cfg : Config) : List Event :=
  (List.range (numModules cfg)).filterMap
    (fun (i : Nat) => if hasSection cfg (moduleName (i : Int))
                      then some (Event.loadModule i) else none)

/-- Events emitted before command dispatch: `config.load()`, one
`loadModule` per existing section in index order, then `setClean`. -/
def startupEvents (cfg : Config) : List Event :=
  Event.loadStore :: loadEvents cfg ++ [Event.markAllClean]

/-- The commands of `main.cpp`'s dispatch chain (lines 100-189), after
argument-count checks. -/
inductive Cmd where
  | noCmd
  | reset
  | sync
  | set (ms vs : String)
  | clearCmd (ms : String)
  | bright (ms vs : String)
  | usage
  | unknown
deriving DecidableEq, Repr

/-- `main.cpp` lines 100-189: pick the command from `argv` (after the
`-v` shift), including the `argc` checks of each branch. -/
def parseCmd (argv : List String) : Cmd :=
  if argv.length ≤ 1 then Cmd.noCmd
  else if argv.getD 1 "" = "reset" then Cmd.reset
  else if argv.getD 1 "" = "sync" then Cmd.sync
  else if argv.getD 1 "" = "set" then
    if argv.length = 4 then Cmd.set (argv.getD 2 "") (argv.getD 3 "") else Cmd.usage
  else if argv.getD 1 "" = "clear" then
    if argv.length = 3 then Cmd.clearCmd (argv.getD 2 "") else Cmd.usage
  else if argv.getD 1 "" = "brightness" then
    if argv.length = 4 then Cmd.bright (argv.getD 2 "") (argv.getD 3 "") else Cmd.usage
  else Cmd.unknown

/-- Outcome of command dispatch: updated store and chain, emitted events,
and whether the run continues to the final flush (`ok = false` models the
`return -1` paths of `main.cpp`). -/
structure CmdResult where
  store : Config
  chain : List ModuleState
  events : List Event
  ok : Bool
deriving DecidableEq, Repr

/-- Dispatch of `main.cpp` lines 100-189.  The `set`, `clear` and
`brightness` branches compute `num = atoi(argv[2]) - 1`, reject
`num < 0 || unsigned(num) >= numDevices()` (and for `brightness` also
`value < 0 || value > 15`), and on success mutate the module, write its
section back (`saveState`), mark the store dirty and save it. -/
def execCmd (cfg : Config) (ch : List ModuleState) : Cmd → CmdResult
  | Cmd.noCmd => { store := cfg, chain := ch, events := [], ok := true }
  | Cmd.reset =>
      { store := cfg, chain := resetChain ch, events := [Event.deviceReset], ok := true }
  | Cmd.sync =>
      { store := cfg, chain := setDirty ch, events := [Event.markAllDirty], ok := true }
  | Cmd.set ms vs =>
      let num := atoi ms - 1
      if num < 0 ∨ (ch.length : Int) ≤ num then
        { store := cfg, chain := ch, events := [], ok := false }
      else
        let n := num.toNat
        let ch2 := setNumber ch n (atoi vs)
        let cfg2 := saveState cfg (moduleName num) ch2 n
        let s := storeSave { cfg2 with dirty := true }
        { store := s.1, chain := ch2,
          events := [Event.mutate n, Event.saveModule n, Event.storeMarkDirty,
                     Event.storeSave] ++ s.2,
          ok := true }
  | Cmd.clearCmd ms =>
      let num := atoi ms - 1
      if num < 0 ∨ (ch.length : Int) ≤ num then
        { store := cfg, chain := ch, events := [], ok := false }
      else
        let n := num.toNat
        let ch2 := clearModule ch n
        let cfg2 := saveState cfg (moduleName num) ch2 n
        let s := storeSave { cfg2 with dirty := true }
        { store := s.1, chain := ch2,
          events := [Event.mutate n, Event.saveModule n, Event.storeMarkDirty,
                     Event.storeSave] ++ s.2,
          ok := true }
  | Cmd.bright ms vs =>
      let num := atoi ms - 1
      if num < 0 ∨ (ch.length : Int) ≤ num then
        { store := cfg, chain := ch, events := [], ok := false }
      else if atoi vs < 0 ∨ 15 < atoi vs then
        { store := cfg, chain := ch, events := [], ok := false }
      else
        let n := num.toNat
        let ch2 := setBrightness ch n (atoi vs)
        let cfg2 := saveState cfg (moduleName num) ch2 n
        let s := storeSave { cfg2 with dirty := true }
        { store := s.1, chain := ch2,
          events := [Event.mutate n, Event.saveModule n, Event.storeMarkDirty,
                     Event.storeSave] ++ s.2,
          ok := true }
  | Cmd.usage => { store := cfg, chain := ch, events := [], ok := true }
  | Cmd.unknown => { store := cfg, chain := ch, events := [], ok := true }

/-- `main.cpp` lines 58-62: consume a leading `-v`. -/
def stripVerbose (argv : List String) : List String :=
  match argv with
  | p :: a :: rest => if a = "-v" then p :: rest else argv
  | _ => argv

/-- Result of one whole process run: exit status, event trace, final store
and chain, and the bus transactions performed. -/
structure RunResult where
  exitCode : Int
  trace : List Event
  store : Config
  chain : List ModuleState
  bus : List (List Frame)
deriving DecidableEq, Repr

/-- One whole run of `main`: startup (store load, sizing, per-module loads,
`setClean`), command dispatch, and — unless a validation failure returned
`-1` — the final `max->sendData()`, which transmits every module's frame
and clears the dirty flags. -/
def run (cfg : Config) (argv0 : List String) : RunResult :=
  let argv := stripVerbose argv0
  let r := execCmd cfg (startupChain cfg) (parseCmd argv)
  if r.ok then
    { exitCode := 0,
      trace := startupEvents cfg ++ r.events ++ [Event.flush],
      store := r.store,
      chain := setClean r.chain,
      bus := [framesOf r.chain] }
  else
    { exitCode := -1,
      trace := startupEvents cfg ++ r.events,
      store := r.store,
      chain := r.chain,
      bus := [] }

/-! ## Helper lemmas -/

theorem length_modifyAt (ch : List ModuleState) (i : Nat) (f : ModuleState → ModuleState) :
    (modifyAt ch i f).length = ch.length := by
  unfold modifyAt
  cases ch[i]? <;> simp

theorem length_setNumber (ch : List ModuleState) (i : Nat) (v : Int) :
    (setNumber ch i v).length = ch.length := length_modifyAt ..

theorem length_clearModule (ch : List ModuleState) (i : Nat) :
    (clearModule ch i).length = ch.length := length_modifyAt ..

theorem length_setBrightness (ch : List ModuleState) (i : Nat) (v : Int) :
    (setBrightness ch i v).length = ch.length := length_modifyAt ..

theorem length_setPower (ch : List ModuleState) (i : Nat) (b : Bool) :
    (setPower ch i b).length = ch.length := length_modifyAt ..

theorem length_loadState (sec : IniSection) (ch : List ModuleState) (i : Nat) :
    (loadState sec ch i).length = ch.length := by
  unfold loadState
  cases lookupKey sec "value" <;> cases lookupKey sec "hasValue" <;>
    cases lookupKey sec "brightness" <;> cases lookupKey sec "power" <;>
    dsimp only [] <;>
    (try split) <;>
    simp [length_setNumber, length_clearModule, length_setBrightness, length_setPower]

/-- Fold invariant: a property preserved by every step holds of the
result. -/
theorem foldl_inv {α β : Type _} (P : α → Prop) (f : α → β → α) :
    ∀ (l : List β) (a : α), P a → (∀ x b, b ∈ l → P x → P (f x b)) → P (l.foldl f a) := by
  intro l
  induction l with
  | nil => intro a h _; exact h
  | cons b t ih =>
    intro a h hstep
    exact ih (f a b) (hstep a b (by simp) h)
      (fun x c hc hx => hstep x c (by simp [hc]) hx)

theorem length_loadAll (cfg : Config) (ch : List ModuleState) :
    (loadAll cfg ch).length = ch.length := by
  unfold loadAll
  refine foldl_inv (fun l => l.length = ch.length) _ _ ch rfl ?_
  intro x i _ hx
  split
  · rw [length_loadState, hx]
  · exact hx

theorem length_resize (n : Nat) (ch : List ModuleState) :
    (resize n ch).length = n := by
  simp [resize]
  omega

theorem resize_initialChain (n : Nat) :
    resize n initialChain = List.replicate n defaultModule := by
  unfold resize initialChain
  rw [List.take_replicate, List.length_replicate, ← List.replicate_add]
  congr 1
  omega

theorem startupChain_length (cfg : Config) :
    (startupChain cfg).length = numModules cfg := by
  simp [startupChain, setClean, length_loadAll, length_resize]

theorem execCmd_chain_length (cfg : Config) (ch : List ModuleState) (c : Cmd) :
    (execCmd cfg ch c).chain.length = ch.length := by
  cases c <;> dsimp only [execCmd] <;> (try (repeat' split)) <;>
    simp [resetChain, setDirty, length_setNumber, length_clearModule, length_setBrightness,
          storeSave]

/-- Events the dispatch may emit: never a load, a clean-all, a store load,
or a flush. -/
def cmdEvent : Event → Bool
  | Event.loadStore => false
  | Event.loadModule _ => false
  | Event.markAllClean => false
  | Event.flush => false
  | _ => true

theorem execCmd_events_all (cfg : Config) (ch : List ModuleState) (c : Cmd) :
    (execCmd cfg ch c).events.all cmdEvent = true := by
  cases c <;> dsimp only [execCmd] <;> (try (repeat' split)) <;> simp [storeSave, cmdEvent]

theorem execCmd_events_cmdEvent (cfg : Config) (ch : List ModuleState) (c : Cmd) :
    ∀ e ∈ (execCmd cfg ch c).events, cmdEvent e = true :=
  fun e he => List.all_eq_true.mp (execCmd_events_all cfg ch c) e he

theorem execCmd_not_ok (cfg : Config) (ch : List ModuleState) (c : Cmd)
    (h : (execCmd cfg ch c).ok = false) :
    execCmd cfg ch c = { store := cfg, chain := ch, events := [], ok := false } := by
  cases c with
  | noCmd => simp [execCmd] at h
  | reset => simp [execCmd] at h
  | sync => simp [execCmd] at h
  | set ms vs =>
    dsimp only [execCmd] at h ⊢
    split at h
    next hc => rw [if_pos hc]
    next hc => simp at h
  | clearCmd ms =>
    dsimp only [execCmd] at h ⊢
    split at h
    next hc => rw [if_pos hc]
    next hc => simp at h
  | bright ms vs =>
    dsimp only [execCmd] at h ⊢
    split at h
    next hc1 => rw [if_pos hc1]
    next hc1 =>
      split at h
      next hc2 => rw [if_neg hc1, if_pos hc2]
      next hc2 => simp at h
  | usage => simp [execCmd] at h
  | unknown => simp [execCmd] at h

theorem loadEvents_all_loadModule (cfg : Config) :
    ∀ e ∈ loadEvents cfg, isLoadModule e = true := by
  intro e he
  rcases List.mem_filterMap.mp he with ⟨j, _, hj⟩
  by_cases hc : hasSection cfg (moduleName (j : Int)) = true
  · rw [if_pos hc] at hj
    cases hj
    rfl
  · rw [if_neg hc] at hj
    cases hj

theorem startupEvents_shape (cfg : Config) :
    ∀ e ∈ startupEvents cfg,
      e = Event.loadStore ∨ isLoadModule e = true ∨ e = Event.markAllClean := by
  intro e he
  simp only [startupEvents, List.mem_cons, List.mem_append, List.mem_singleton,
    List.not_mem_nil, or_false] at he
  rcases he with (h | h) | h
  · exact Or.inl h
  · exact Or.inr (Or.inl (loadEvents_all_loadModule cfg e h))
  · exact Or.inr (Or.inr h)

theorem cmdEvent_facts (e : Event) (h : cmdEvent e = true) :
    isLoadModule e = false ∧ e ≠ Event.markAllClean ∧ e ≠ Event.flush ∧
    e ≠ Event.loadStore := by
  cases e <;> simp_all [cmdEvent, isLoadModule]

theorem startupEvents_quiet (cfg : Config) (e : Event) (he : e ∈ startupEvents cfg) :
    isFlush e = false ∧ isStoreSave e = false ∧ isFileWrite e = false ∧
    isStoreMarkDirty e = false ∧ isMutate e = false := by
  rcases startupEvents_shape cfg e he with h | h | h
  · subst h; exact ⟨rfl, rfl, rfl, rfl, rfl⟩
  · cases e <;>
      simp_all [isLoadModule, isFlush, isStoreSave, isFileWrite, isStoreMarkDirty, isMutate]
  · subst h; exact ⟨rfl, rfl, rfl, rfl, rfl⟩

theorem firstThen_append_of_all_not (p q : Event → Bool) (l1 l2 : List Event)
    (h : ∀ e ∈ l1, p e = false) :
    firstThen p q (l1 ++ l2) = firstThen p q l2 := by
  induction l1 with
  | nil => rfl
  | cons e t ih =>
    have he : p e = false := h e (by simp)
    simp only [List.cons_append, firstThen, he, Bool.false_eq_true, if_false]
    exact ih (fun x hx => h x (by simp [hx]))

/-! Store lookup lemmas. -/

theorem getSection_writeKey (cfg : Config) (name k v : String) :
    getSection (writeKey cfg name k v) name = setKey (getSection cfg name) k v := by
  unfold getSection writeKey
  rw [List.find?_cons_of_pos _ (by simp)]
  rfl

theorem hasSection_writeKey (cfg : Config) (name k v : String) :
    hasSection (writeKey cfg name k v) name = true := by
  simp [hasSection, writeKey]

theorem lookupKey_setKey_self (sec : IniSection) (k v : String) :
    lookupKey (setKey sec k v) k = some v := by
  unfold lookupKey setKey
  rw [List.find?_cons_of_pos _ (by simp)]
  rfl

theorem lookupKey_setKey_ne (sec : IniSection) (k k' v : String) (h : ¬ k' = k) :
    lookupKey (setKey sec k v) k' = lookupKey sec k' := by
  unfold lookupKey setKey
  rw [List.find?_cons_of_neg _ (by simp only [beq_iff_eq]; exact fun hh => h hh.symm)]

theorem saveState_section (cfg : Config) (name : String) (ch : List ModuleState) (i : Nat) :
    getSection (saveState cfg name ch i) name =
      setKey (setKey (setKey (setKey (getSection cfg name)
        "value" (toString (ch.getD i defaultModule).value))
        "hasValue" (if (ch.getD i defaultModule).hasValue then "true" else "false"))
        "brightness" (toString (ch.getD i defaultModule).brightness))
        "power" (if (ch.getD i defaultModule).power then "true" else "false") := by
  unfold saveState
  simp only [getSection_writeKey]

theorem saveState_lookups (cfg : Config) (name : String) (ch : List ModuleState) (i : Nat) :
    lookupKey (getSection (saveState cfg name ch i) name) "value"
        = some (toString (ch.getD i defaultModule).value) ∧
    lookupKey (getSection (saveState cfg name ch i) name) "hasValue"
        = some (if (ch.getD i defaultModule).hasValue then "true" else "false") ∧
    lookupKey (getSection (saveState cfg name ch i) name) "brightness"
        = some (toString (ch.getD i defaultModule).brightness) ∧
    lookupKey (getSection (saveState cfg name ch i) name) "power"
        = some (if (ch.getD i defaultModule).power then "true" else "false") := by
  rw [saveState_section]
  refine ⟨?_, ?_, ?_, ?_⟩
  · rw [lookupKey_setKey_ne _ _ _ _ (by decide), lookupKey_setKey_ne _ _ _ _ (by decide),
        lookupKey_setKey_ne _ _ _ _ (by decide), lookupKey_setKey_self]
  · rw [lookupKey_setKey_ne _ _ _ _ (by decide), lookupKey_setKey_ne _ _ _ _ (by decide),
        lookupKey_setKey_self]
  · rw [lookupKey_setKey_ne _ _ _ _ (by decide), lookupKey_setKey_self]
  · rw [lookupKey_setKey_self]

/-! Chain content lemmas. -/

theorem getD_setClean (ch : List ModuleState) (n : Nat) :
    (setClean ch).getD n defaultModule = { ch.getD n defaultModule with dirty := false } := by
  unfold setClean
  rw [List.getD_eq_getElem?_getD, List.getElem?_map, List.getD_eq_getElem?_getD]
  cases ch[n]? <;> rfl

theorem framesOf_setClean (ch : List ModuleState) : framesOf (setClean ch) = framesOf ch := by
  unfold framesOf setClean
  rw [List.map_map]
  rfl

theorem framesOf_setDirty (ch : List ModuleState) : framesOf (setDirty ch) = framesOf ch := by
  unfold framesOf setDirty
  rw [List.map_map]
  rfl

theorem setDirty_all_dirty (ch : List ModuleState) :
    (setDirty ch).all (fun m => m.dirty) = true := by
  simp [setDirty, List.all_map, Function.comp]

theorem modifyAt_getElem_ne (ch : List ModuleState) (j i : Nat)
    (f : ModuleState → ModuleState) (h : j ≠ i) :
    (modifyAt ch j f)[i]? = ch[i]? := by
  unfold modifyAt
  cases ch[j]? <;> simp [List.getElem?_set_ne h]

theorem loadState_getElem_ne (sec : IniSection) (ch : List ModuleState) (j i : Nat)
    (h : j ≠ i) :
    (loadState sec ch j)[i]? = ch[i]? := by
  unfold loadState
  cases lookupKey sec "value" <;> cases lookupKey sec "hasValue" <;>
    cases lookupKey sec "brightness" <;> cases lookupKey sec "power" <;>
    dsimp only [] <;> (try split) <;>
    simp [setNumber, clearModule, setBrightness, setPower, modifyAt_getElem_ne, h]

theorem loadAll_getElem_missing (cfg : Config) (ch : List ModuleState) (i : Nat)
    (h : hasSection cfg (moduleName (i : Int)) = false) :
    (loadAll cfg ch)[i]? = ch[i]? := by
  unfold loadAll
  refine foldl_inv (fun l => l[i]? = ch[i]?) _ _ ch rfl ?_
  intro x j hj hx
  by_cases hji : j = i
  · subst hji
    rw [if_neg (by simp [h])]
    exact hx
  · split
    · rw [loadState_getElem_ne _ _ _ _ hji, hx]
    · exact hx

theorem startupChain_missing (cfg : Config) (i : Nat) (hi : i < numModules cfg)
    (h : hasSection cfg (moduleName (i : Int)) = false) :
    (startupChain cfg)[i]? = some defaultModule := by
  unfold startupChain setClean
  rw [List.getElem?_map, loadAll_getElem_missing cfg _ i h, resize_initialChain,
      List.getElem?_replicate, if_pos hi]
  rfl

/-! Reductions of argument parsing and dispatch. -/

theorem parseCmd_set (p ms vs : String) :
    parseCmd (stripVerbose [p, "set", ms, vs]) = Cmd.set ms vs := rfl

theorem parseCmd_clear (p ms : String) :
    parseCmd (stripVerbose [p, "clear", ms]) = Cmd.clearCmd ms := rfl

theorem parseCmd_bright (p ms vs : String) :
    parseCmd (stripVerbose [p, "brightness", ms, vs]) = Cmd.bright ms vs := rfl

theorem parseCmd_sync (p : String) :
    parseCmd (stripVerbose [p, "sync"]) = Cmd.sync := rfl

theorem execCmd_set_ok (cfg : Config) (ch : List ModuleState) (ms vs : String)
    (h : ¬(atoi ms - 1 < 0 ∨ (ch.length : Int) ≤ atoi ms - 1)) :
    execCmd cfg ch (Cmd.set ms vs) =
      { store := { saveState cfg (moduleName (atoi ms - 1))
                     (setNumber ch (atoi ms - 1).toNat (atoi vs)) (atoi ms - 1).toNat
                   with dirty := false },
        chain := setNumber ch (atoi ms - 1).toNat (atoi vs),
        events := [Event.mutate (atoi ms - 1).toNat, Event.saveModule (atoi ms - 1).toNat,
                   Event.storeMarkDirty, Event.storeSave, Event.fileWrite],
        ok := true } := by
  dsimp only [execCmd]
  rw [if_neg h]
  rfl

theorem execCmd_clear_ok (cfg : Config) (ch : List ModuleState) (ms : String)
    (h : ¬(atoi ms - 1 < 0 ∨ (ch.length : Int) ≤ atoi ms - 1)) :
    execCmd cfg ch (Cmd.clearCmd ms) =
      { store := { saveState cfg (moduleName (atoi ms - 1))
                     (clearModule ch (atoi ms - 1).toNat) (atoi ms - 1).toNat
                   with dirty := false },
        chain := clearModule ch (atoi ms - 1).toNat,
        events := [Event.mutate (atoi ms - 1).toNat, Event.saveModule (atoi ms - 1).toNat,
                   Event.storeMarkDirty, Event.storeSave, Event.fileWrite],
        ok := true } := by
  dsimp only [execCmd]
  rw [if_neg h]
  rfl

theorem execCmd_bright_ok (cfg : Config) (ch : List ModuleState) (ms vs : String)
    (h : ¬(atoi ms - 1 < 0 ∨ (ch.length : Int) ≤ atoi ms - 1))
    (hv : ¬(atoi vs < 0 ∨ 15 < atoi vs)) :
    execCmd cfg ch (Cmd.bright ms vs) =
      { store := { saveState cfg (moduleName (atoi ms - 1))
                     (setBrightness ch (atoi ms - 1).toNat (atoi vs)) (atoi ms - 1).toNat
                   with dirty := false },
        chain := setBrightness ch (atoi ms - 1).toNat (atoi vs),
        events := [Event.mutate (atoi ms - 1).toNat, Event.saveModule (atoi ms - 1).toNat,
                   Event.storeMarkDirty, Event.storeSave, Event.fileWrite],
        ok := true } := by
  dsimp only [execCmd]
  rw [if_neg h, if_neg hv]
  rfl

theorem execCmd_set_fail (cfg : Config) (ch : List ModuleState) (ms vs : String)
    (h : atoi ms - 1 < 0 ∨ (ch.length : Int) ≤ atoi ms - 1) :
    execCmd cfg ch (Cmd.set ms vs) =
      { store := cfg, chain := ch, events := [], ok := false } := by
  dsimp only [execCmd]
  rw [if_pos h]

theorem execCmd_clear_fail (cfg : Config) (ch : List ModuleState) (ms : String)
    (h : atoi ms - 1 < 0 ∨ (ch.length : Int) ≤ atoi ms - 1) :
    execCmd cfg ch (Cmd.clearCmd ms) =
      { store := cfg, chain := ch, events := [], ok := false } := by
  dsimp only [execCmd]
  rw [if_pos h]

theorem execCmd_bright_fail_idx (cfg : Config) (ch : List ModuleState) (ms vs : String)
    (h : atoi ms - 1 < 0 ∨ (ch.length : Int) ≤ atoi ms - 1) :
    execCmd cfg ch (Cmd.bright ms vs) =
      { store := cfg, chain := ch, events := [], ok := false } := by
  dsimp only [execCmd]
  rw [if_pos h]

theorem execCmd_bright_fail_val (cfg : Config) (ch : List ModuleState) (ms vs : String)
    (h : ¬(atoi ms - 1 < 0 ∨ (ch.length : Int) ≤ atoi ms - 1))
    (hv : atoi vs < 0 ∨ 15 < atoi vs) :
    execCmd cfg ch (Cmd.bright ms vs) =
      { store := cfg, chain := ch, events := [], ok := false } := by
  dsimp only [execCmd]
  rw [if_neg h, if_pos hv]

/-! ## Claim theorems -/

/-- Store used for concrete runs: one chained module, no display sections. -/
def cfgOne : Config := { sections := [("interface:spi-0", [("modules", "1")])], dirty := false }

/-- Store used for concrete runs: two chained modules, no display sections. -/
def cfgTwo : Config := { sections := [("interface:spi-0", [("modules", "2")])], dirty := false }

/-- Claim C6: for every zero-based module index, the persistent section
name used for load and save is the fixed text "display:" followed by the
1-based module number; in particular index 0 maps to "display:1". -/
theorem moduleName_spec :
    (∀ i : Int, moduleName i = "display:" ++ toString (i + 1)) ∧
    moduleName 0 = "display:1" ∧ moduleName 1 = "display:2" :=
  ⟨fun _ => rfl, by decide, by decide⟩

/-- Claim C1 as stated (mutation commits: load, mutate, flush, save, exit)
is false on the code: in a concrete validated `set` run both the bus flush
and the store save occur, but no store save follows the flush — the save
comes first. -/
theorem mutation_order_counterexample :
    (run cfgOne ["prog", "set", "1", "42"]).trace.any isFlush = true ∧
    (run cfgOne ["prog", "set", "1", "42"]).trace.any isStoreSave = true ∧
    firstThen isStoreSave isFlush (run cfgOne ["prog", "set", "1", "42"]).trace = true ∧
    firstThen isFlush isStoreSave (run cfgOne ["prog", "set", "1", "42"]).trace = false := by
  decide

/-- Claim C1 (amended): every validated mutation run (set, clear or
brightness) performs its steps in the order: load persisted state, apply
the single mutation, save to the persistent store (section write, store
dirty mark, store save doing its file write), then flush to the bus, then
exit with status 0. -/
theorem mutation_run_order (cfg : Config) (argv : List String) (p ms vs : String)
    (hargv : argv = [p, "set", ms, vs] ∨ argv = [p, "clear", ms] ∨
             (argv = [p, "brightness", ms, vs] ∧ ¬(atoi vs < 0 ∨ 15 < atoi vs)))
    (hidx : ¬(atoi ms - 1 < 0 ∨ (numModules cfg : Int) ≤ atoi ms - 1)) :
    (run cfg argv).exitCode = 0 ∧
    (run cfg argv).trace =
      Event.loadStore :: (loadEvents cfg ++
        [Event.markAllClean, Event.mutate (atoi ms - 1).toNat,
         Event.saveModule (atoi ms - 1).toNat, Event.storeMarkDirty, Event.storeSave,
         Event.fileWrite, Event.flush]) ∧
    (∀ e ∈ loadEvents cfg, isLoadModule e = true) := by
  have hidx' : ¬(atoi ms - 1 < 0 ∨ ((startupChain cfg).length : Int) ≤ atoi ms - 1) := by
    rw [startupChain_length]; exact hidx
  rcases hargv with h | h | ⟨h, hv⟩ <;> subst h
  · have hr := execCmd_set_ok cfg (startupChain cfg) ms vs hidx'
    refine ⟨?_, ?_, loadEvents_all_loadModule cfg⟩ <;>
      simp [run, parseCmd_set, hr, startupEvents]
  · have hr := execCmd_clear_ok cfg (startupChain cfg) ms hidx'
    refine ⟨?_, ?_, loadEvents_all_loadModule cfg⟩ <;>
      simp [run, parseCmd_clear, hr, startupEvents]
  · have hr := execCmd_bright_ok cfg (startupChain cfg) ms vs hidx' hv
    refine ⟨?_, ?_, loadEvents_all_loadModule cfg⟩ <;>
      simp [run, parseCmd_bright, hr, startupEvents]

/-- Witness for the amended C1 at a concrete validated `set` run. -/
theorem mutation_run_order_witness :
    (run cfgOne ["prog", "set", "1", "42"]).exitCode = 0 ∧
    (run cfgOne ["prog", "set", "1", "42"]).trace =
      Event.loadStore :: (loadEvents cfgOne ++
        [Event.markAllClean, Event.mutate (atoi "1" - 1).toNat,
         Event.saveModule (atoi "1" - 1).toNat, Event.storeMarkDirty, Event.storeSave,
         Event.fileWrite, Event.flush]) ∧
    (∀ e ∈ loadEvents cfgOne, isLoadModule e = true) :=
  mutation_run_order cfgOne ["prog", "set", "1", "42"] "prog" "1" "42"
    (Or.inl rfl) (by decide)

/-- Claim C2: set, clear and brightness reject a module index outside
[0, numDevices) with exit status -1, leaving every module's runtime state
(and the store) exactly as it was after startup. -/
theorem outOfRange_rejected (cfg : Config) (argv : List String) (p ms vs : String)
    (hargv : argv = [p, "set", ms, vs] ∨ argv = [p, "clear", ms] ∨
             argv = [p, "brightness", ms, vs])
    (hbad : atoi ms - 1 < 0 ∨ (numModules cfg : Int) ≤ atoi ms - 1) :
    (run cfg argv).exitCode = -1 ∧
    (run cfg argv).chain = startupChain cfg ∧
    (run cfg argv).store = cfg := by
  have hbad' : atoi ms - 1 < 0 ∨ ((startupChain cfg).length : Int) ≤ atoi ms - 1 := by
    rw [startupChain_length]; exact hbad
  rcases hargv with h | h | h <;> subst h
  · have hr := execCmd_set_fail cfg (startupChain cfg) ms vs hbad'
    refine ⟨?_, ?_, ?_⟩ <;> simp [run, parseCmd_set, hr]
  · have hr := execCmd_clear_fail cfg (startupChain cfg) ms hbad'
    refine ⟨?_, ?_, ?_⟩ <;> simp [run, parseCmd_clear, hr]
  · have hr := execCmd_bright_fail_idx cfg (startupChain cfg) ms vs hbad'
    refine ⟨?_, ?_, ?_⟩ <;> simp [run, parseCmd_bright, hr]

/-- Witness for C2: module number 3 on a two-module chain (index 2) is
rejected and mutates nothing. -/
theorem outOfRange_rejected_witness :
    (run cfgTwo ["prog", "set", "3", "9"]).exitCode = -1 ∧
    (run cfgTwo ["prog", "set", "3", "9"]).chain = startupChain cfgTwo ∧
    (run cfgTwo ["prog", "set", "3", "9"]).store = cfgTwo :=
  outOfRange_rejected cfgTwo ["prog", "set", "3", "9"] "prog" "3" "9"
    (Or.inl rfl) (by decide)

/-- Claim C3: for a valid module index, a brightness level outside [0,15]
is rejected with exit status -1 before any mutation: chain and store keep
their startup state (in particular every brightness is unchanged). -/
theorem brightnessRange_rejected (cfg : Config) (p ms vs : String)
    (hidx : ¬(atoi ms - 1 < 0 ∨ (numModules cfg : Int) ≤ atoi ms - 1))
    (hval : atoi vs < 0 ∨ 15 < atoi vs) :
    (run cfg [p, "brightness", ms, vs]).exitCode = -1 ∧
    (run cfg [p, "brightness", ms, vs]).chain = startupChain cfg ∧
    (run cfg [p, "brightness", ms, vs]).store = cfg := by
  have hidx' : ¬(atoi ms - 1 < 0 ∨ ((startupChain cfg).length : Int) ≤ atoi ms - 1) := by
    rw [startupChain_length]; exact hidx
  have hr := execCmd_bright_fail_val cfg (startupChain cfg) ms vs hidx' hval
  refine ⟨?_, ?_, ?_⟩ <;> simp [run, parseCmd_bright, hr]

/-- Witness for C3: brightness 16 on a valid module is rejected. -/
theorem brightnessRange_rejected_witness :
    (run cfgOne ["prog", "brightness", "1", "16"]).exitCode = -1 ∧
    (run cfgOne ["prog", "brightness", "1", "16"]).chain = startupChain cfgOne ∧
    (run cfgOne ["prog", "brightness", "1", "16"]).store = cfgOne :=
  brightnessRange_rejected cfgOne "prog" "1" "16" (by decide) (by decide)

theorem run_trace_mem (cfg : Config) (argv : List String) (e : Event)
    (he : e ∈ (run cfg argv).trace) :
    e ∈ startupEvents cfg ∨
    e ∈ (execCmd cfg (startupChain cfg) (parseCmd (stripVerbose argv))).events ∨
    e = Event.flush := by
  simp only [run, apply_ite RunResult.trace] at he
  split at he <;> simp only [List.mem_append, List.mem_singleton] at he <;> tauto

theorem loadModule_not_in_loadEvents (cfg : Config) (i : Nat)
    (hnosec : hasSection cfg (moduleName (i : Int)) = false) :
    Event.loadModule i ∉ loadEvents cfg := by
  intro hmem
  rcases List.mem_filterMap.mp hmem with ⟨j, _, hj⟩
  by_cases hc : hasSection cfg (moduleName (j : Int)) = true
  · rw [if_pos hc] at hj
    simp only [Option.some.injEq, Event.loadModule.injEq] at hj
    subst hj
    rw [hnosec] at hc
    exact Bool.noConfusion hc
  · rw [if_neg hc] at hj
    cases hj

/-- Claim C4: in every run, the chain-wide mark-all-clean happens exactly
once, right after the per-module load loop (whose events are all module
loads) and before anything else (command mutations, store writes, the
flush). -/
theorem setClean_after_loads (cfg : Config) (argv : List String) :
    ∃ loads rest,
      (run cfg argv).trace = Event.loadStore :: (loads ++ Event.markAllClean :: rest) ∧
      (∀ e ∈ loads, isLoadModule e = true) ∧
      (∀ e ∈ rest, isLoadModule e = false ∧ e ≠ Event.markAllClean) := by
  by_cases hok : (execCmd cfg (startupChain cfg) (parseCmd (stripVerbose argv))).ok = true
  · refine ⟨loadEvents cfg,
      (execCmd cfg (startupChain cfg) (parseCmd (stripVerbose argv))).events ++ [Event.flush],
      ?_, loadEvents_all_loadModule cfg, ?_⟩
    · simp [run, hok, startupEvents]
    · intro e he
      rcases List.mem_append.mp he with h | h
      · have hf := cmdEvent_facts e (execCmd_events_cmdEvent _ _ _ e h)
        exact ⟨hf.1, hf.2.1⟩
      · rcases List.mem_singleton.mp h with rfl
        exact ⟨rfl, by simp⟩
  · have hok' : (execCmd cfg (startupChain cfg) (parseCmd (stripVerbose argv))).ok = false :=
      Bool.not_eq_true _ ▸ Bool.eq_false_iff.mpr hok
    have hr := execCmd_not_ok _ _ _ hok'
    refine ⟨loadEvents cfg, [], ?_, loadEvents_all_loadModule cfg, by simp⟩
    simp [run, hr, startupEvents]

/-- Claim C7: a module whose persistent section does not exist is skipped
by the startup load loop (its load event occurs in no run) and sits at its
default state — unset value, default brightness, powered on — right after
startup. -/
theorem missing_section_defaults (cfg : Config) (argv : List String) (i : Nat)
    (hi : i < numModules cfg)
    (hnosec : hasSection cfg (moduleName (i : Int)) = false) :
    (startupChain cfg)[i]? = some defaultModule ∧
    Event.loadModule i ∉ (run cfg argv).trace := by
  refine ⟨startupChain_missing cfg i hi hnosec, fun hmem => ?_⟩
  rcases run_trace_mem cfg argv _ hmem with h | h | h
  · simp only [startupEvents, List.mem_cons, List.mem_append, List.mem_singleton,
      List.not_mem_nil, or_false] at h
    rcases h with (h | h) | h
    · cases h
    · exact loadModule_not_in_loadEvents cfg i hnosec h
    · cases h
  · have hf := cmdEvent_facts _ (execCmd_events_cmdEvent _ _ _ _ h)
    simp [isLoadModule] at hf
  · cases h

/-- Witness for C7: with two configured modules and no display sections,
module 0 keeps its defaults and is never loaded. -/
theorem missing_section_defaults_witness :
    (startupChain cfgTwo)[0]? = some defaultModule ∧
    Event.loadModule 0 ∉ (run cfgTwo ["prog", "sync"]).trace :=
  missing_section_defaults cfgTwo ["prog", "sync"] 0 (by decide) (by decide)

theorem getSection_mkDirty (cfg : Config) (b : Bool) (name : String) :
    getSection { cfg with dirty := b } name = getSection cfg name := rfl

theorem run_mutation_saves (cfg : Config) (argv : List String) (ms : String)
    (ch2 : List ModuleState)
    (hr : execCmd cfg (startupChain cfg) (parseCmd (stripVerbose argv)) =
      { store := { saveState cfg (moduleName (atoi ms - 1)) ch2 (atoi ms - 1).toNat
                   with dirty := false },
        chain := ch2,
        events := [Event.mutate (atoi ms - 1).toNat, Event.saveModule (atoi ms - 1).toNat,
                   Event.storeMarkDirty, Event.storeSave, Event.fileWrite],
        ok := true }) :
    firstThen isMutate isStoreSave (run cfg argv).trace = true ∧
    firstThen isStoreMarkDirty isStoreSave (run cfg argv).trace = true ∧
    firstThen isStoreSave isFileWrite (run cfg argv).trace = true ∧
    lookupKey (getSection (run cfg argv).store (moduleName (atoi ms - 1))) "value"
      = some (toString (((run cfg argv).chain.getD (atoi ms - 1).toNat defaultModule).value)) ∧
    lookupKey (getSection (run cfg argv).store (moduleName (atoi ms - 1))) "hasValue"
      = some (if ((run cfg argv).chain.getD (atoi ms - 1).toNat defaultModule).hasValue
              then "true" else "false") ∧
    lookupKey (getSection (run cfg argv).store (moduleName (atoi ms - 1))) "brightness"
      = some (toString (((run cfg argv).chain.getD (atoi ms - 1).toNat defaultModule).brightness)) ∧
    lookupKey (getSection (run cfg argv).store (moduleName (atoi ms - 1))) "power"
      = some (if ((run cfg argv).chain.getD (atoi ms - 1).toNat defaultModule).power
              then "true" else "false") := by
  have htr : (run cfg argv).trace =
      startupEvents cfg ++
        ([Event.mutate (atoi ms - 1).toNat, Event.saveModule (atoi ms - 1).toNat,
          Event.storeMarkDirty, Event.storeSave, Event.fileWrite] ++ [Event.flush]) := by
    simp [run, hr]
  have hstore : (run cfg argv).store =
      { saveState cfg (moduleName (atoi ms - 1)) ch2 (atoi ms - 1).toNat
        with dirty := false } := by
    simp [run, hr]
  have hchain : (run cfg argv).chain = setClean ch2 := by
    simp [run, hr]
  have hs := saveState_lookups cfg (moduleName (atoi ms - 1)) ch2 (atoi ms - 1).toNat
  refine ⟨?_, ?_, ?_, ?_, ?_, ?_, ?_⟩
  · rw [htr, firstThen_append_of_all_not _ _ _ _
      (fun e he => (startupEvents_quiet cfg e he).2.2.2.2)]
    rfl
  · rw [htr, firstThen_append_of_all_not _ _ _ _
      (fun e he => (startupEvents_quiet cfg e he).2.2.2.1)]
    rfl
  · rw [htr, firstThen_append_of_all_not _ _ _ _
      (fun e he => (startupEvents_quiet cfg e he).2.1)]
    rfl
  · rw [hstore, hchain, getSection_mkDirty, hs.1, getD_setClean]
  · rw [hstore, hchain, getSection_mkDirty, hs.2.1, getD_setClean]
  · rw [hstore, hchain, getSection_mkDirty, hs.2.2.1, getD_setClean]
  · rw [hstore, hchain, getSection_mkDirty, hs.2.2.2, getD_setClean]

/-- Claim C5: after every successful mutation (set, clear or brightness on
a valid module) the mutation precedes the store save, the store's global
dirty flag is marked before the store-level save is invoked, that save
performs its file write, and the module's final state (value, hasValue,
brightness, power) is what stands written in its persistent section. -/
theorem mutation_persists (cfg : Config) (argv : List String) (p ms vs : String)
    (hargv : argv = [p, "set", ms, vs] ∨ argv = [p, "clear", ms] ∨
             (argv = [p, "brightness", ms, vs] ∧ ¬(atoi vs < 0 ∨ 15 < atoi vs)))
    (hidx : ¬(atoi ms - 1 < 0 ∨ (numModules cfg : Int) ≤ atoi ms - 1)) :
    firstThen isMutate isStoreSave (run cfg argv).trace = true ∧
    firstThen isStoreMarkDirty isStoreSave (run cfg argv).trace = true ∧
    firstThen isStoreSave isFileWrite (run cfg argv).trace = true ∧
    lookupKey (getSection (run cfg argv).store (moduleName (atoi ms - 1))) "value"
      = some (toString (((run cfg argv).chain.getD (atoi ms - 1).toNat defaultModule).value)) ∧
    lookupKey (getSection (run cfg argv).store (moduleName (atoi ms - 1))) "hasValue"
      = some (if ((run cfg argv).chain.getD (atoi ms - 1).toNat defaultModule).hasValue
              then "true" else "false") ∧
    lookupKey (getSection (run cfg argv).store (moduleName (atoi ms - 1))) "brightness"
      = some (toString (((run cfg argv).chain.getD (atoi ms - 1).toNat defaultModule).brightness)) ∧
    lookupKey (getSection (run cfg argv).store (moduleName (atoi ms - 1))) "power"
      = some (if ((run cfg argv).chain.getD (atoi ms - 1).toNat defaultModule).power
              then "true" else "false") := by
  have hidx' : ¬(atoi ms - 1 < 0 ∨ ((startupChain cfg).length : Int) ≤ atoi ms - 1) := by
    rw [startupChain_length]; exact hidx
  rcases hargv with h | h | ⟨h, hv⟩ <;> subst h
  · exact run_mutation_saves cfg _ ms _ (execCmd_set_ok cfg (startupChain cfg) ms vs hidx')
  · exact run_mutation_saves cfg _ ms _ (execCmd_clear_ok cfg (startupChain cfg) ms hidx')
  · exact run_mutation_saves cfg _ ms _ (execCmd_bright_ok cfg (startupChain cfg) ms vs hidx' hv)

/-- Witness for C5 at a concrete validated `set` run. -/
theorem mutation_persists_witness :
    firstThen isMutate isStoreSave (run cfgOne ["prog", "set", "1", "42"]).trace = true ∧
    firstThen isStoreMarkDirty isStoreSave (run cfgOne ["prog", "set", "1", "42"]).trace = true ∧
    firstThen isStoreSave isFileWrite (run cfgOne ["prog", "set", "1", "42"]).trace = true ∧
    lookupKey (getSection (run cfgOne ["prog", "set", "1", "42"]).store
        (moduleName (atoi "1" - 1))) "value"
      = some (toString (((run cfgOne ["prog", "set", "1", "42"]).chain.getD
          (atoi "1" - 1).toNat defaultModule).value)) ∧
    lookupKey (getSection (run cfgOne ["prog", "set", "1", "42"]).store
        (moduleName (atoi "1" - 1))) "hasValue"
      = some (if ((run cfgOne ["prog", "set", "1", "42"]).chain.getD
          (atoi "1" - 1).toNat defaultModule).hasValue then "true" else "false") ∧
    lookupKey (getSection (run cfgOne ["prog", "set", "1", "42"]).store
        (moduleName (atoi "1" - 1))) "brightness"
      = some (toString (((run cfgOne ["prog", "set", "1", "42"]).chain.getD
          (atoi "1" - 1).toNat defaultModule).brightness)) ∧
    lookupKey (getSection (run cfgOne ["prog", "set", "1", "42"]).store
        (moduleName (atoi "1" - 1))) "power"
      = some (if ((run cfgOne ["prog", "set", "1", "42"]).chain.getD
          (atoi "1" - 1).toNat defaultModule).power then "true" else "false") :=
  mutation_persists cfgOne ["prog", "set", "1", "42"] "prog" "1" "42"
    (Or.inl rfl) (by decide)

theorem isFlush_eq_true_iff (e : Event) : isFlush e = true ↔ e = Event.flush := by
  cases e <;> simp [isFlush]

/-- Claim C8: every run that passes validation ends with exactly one bus
flush, as its very last step, whatever command ran (or none); the flush's
single transaction holds one frame per module of the whole chain, dirty or
not. -/
theorem flush_always_last (cfg : Config) (argv : List String)
    (h : (run cfg argv).exitCode = 0) :
    (run cfg argv).trace.countP isFlush = 1 ∧
    (run cfg argv).trace.getLast? = some Event.flush ∧
    (run cfg argv).bus = [framesOf (run cfg argv).chain] ∧
    ∃ fs, (run cfg argv).bus = [fs] ∧ fs.length = numModules cfg := by
  by_cases hok : (execCmd cfg (startupChain cfg) (parseCmd (stripVerbose argv))).ok = true
  · have htr : (run cfg argv).trace =
        startupEvents cfg ++
          (execCmd cfg (startupChain cfg) (parseCmd (stripVerbose argv))).events ++
          [Event.flush] := by
      simp [run, hok]
    have hbus : (run cfg argv).bus =
        [framesOf (execCmd cfg (startupChain cfg) (parseCmd (stripVerbose argv))).chain] := by
      simp [run, hok]
    have hchain : (run cfg argv).chain =
        setClean (execCmd cfg (startupChain cfg) (parseCmd (stripVerbose argv))).chain := by
      simp [run, hok]
    refine ⟨?_, ?_, ?_, ?_⟩
    · rw [htr, List.countP_append, List.countP_append]
      have h1 : (startupEvents cfg).countP isFlush = 0 :=
        List.countP_eq_zero.mpr (fun e he => by simp [(startupEvents_quiet cfg e he).1])
      have h2 : (execCmd cfg (startupChain cfg)
          (parseCmd (stripVerbose argv))).events.countP isFlush = 0 :=
        List.countP_eq_zero.mpr (fun e he => by
          have hne := (cmdEvent_facts e (execCmd_events_cmdEvent _ _ _ e he)).2.2.1
          simp only [isFlush_eq_true_iff]
          exact hne)
      rw [h1, h2]
      rfl
    · rw [htr, List.getLast?_concat]
    · rw [hbus, hchain, framesOf_setClean]
    · refine ⟨framesOf (execCmd cfg (startupChain cfg)
        (parseCmd (stripVerbose argv))).chain, hbus, ?_⟩
      simp [framesOf, execCmd_chain_length, startupChain_length]
  · exfalso
    have hok' : (execCmd cfg (startupChain cfg) (parseCmd (stripVerbose argv))).ok = false :=
      Bool.not_eq_true _ ▸ Bool.eq_false_iff.mpr hok
    have hr := execCmd_not_ok _ _ _ hok'
    rw [show (run cfg argv).exitCode = -1 from by simp [run, hr]] at h
    exact absurd h (by decide)

/-- Witness for C8: the command-less run still flushes, last, all modules. -/
theorem flush_always_last_witness :
    (run cfgOne ["prog"]).trace.countP isFlush = 1 ∧
    (run cfgOne ["prog"]).trace.getLast? = some Event.flush ∧
    (run cfgOne ["prog"]).bus = [framesOf (run cfgOne ["prog"]).chain] ∧
    ∃ fs, (run cfgOne ["prog"]).bus = [fs] ∧ fs.length = numModules cfgOne :=
  flush_always_last cfgOne ["prog"] (by decide)

/-- Claim C9: when a command's validation fails the run exits with status
-1 before any store save or bus flush: no bus transaction, no store-save,
dirty-mark or file-write event, and the store is returned unchanged. -/
theorem validation_failure_clean_exit (cfg : Config) (argv : List String)
    (h : (run cfg argv).exitCode = -1) :
    (run cfg argv).bus = [] ∧
    (run cfg argv).store = cfg ∧
    (run cfg argv).trace.any isFlush = false ∧
    (run cfg argv).trace.any isStoreSave = false ∧
    (run cfg argv).trace.any isFileWrite = false := by
  by_cases hok : (execCmd cfg (startupChain cfg) (parseCmd (stripVerbose argv))).ok = true
  · exfalso
    rw [show (run cfg argv).exitCode = 0 from by simp [run, hok]] at h
    exact absurd h (by decide)
  · have hok' : (execCmd cfg (startupChain cfg) (parseCmd (stripVerbose argv))).ok = false :=
      Bool.not_eq_true _ ▸ Bool.eq_false_iff.mpr hok
    have hr := execCmd_not_ok _ _ _ hok'
    have htr : (run cfg argv).trace = startupEvents cfg := by simp [run, hr, startupEvents]
    refine ⟨by simp [run, hr], by simp [run, hr], ?_, ?_, ?_⟩
    · rw [htr]
      exact List.any_eq_false.mpr (fun e he => by simp [(startupEvents_quiet cfg e he).1])
    · rw [htr]
      exact List.any_eq_false.mpr (fun e he => by simp [(startupEvents_quiet cfg e he).2.1])
    · rw [htr]
      exact List.any_eq_false.mpr (fun e he => by simp [(startupEvents_quiet cfg e he).2.2.1])

/-- Witness for C9: an out-of-range set run leaves bus and store untouched. -/
theorem validation_failure_clean_exit_witness :
    (run cfgOne ["prog", "set", "5", "1"]).bus = [] ∧
    (run cfgOne ["prog", "set", "5", "1"]).store = cfgOne ∧
    (run cfgOne ["prog", "set", "5", "1"]).trace.any isFlush = false ∧
    (run cfgOne ["prog", "set", "5", "1"]).trace.any isStoreSave = false ∧
    (run cfgOne ["prog", "set", "5", "1"]).trace.any isFileWrite = false :=
  validation_failure_clean_exit cfgOne ["prog", "set", "5", "1"] (by decide)

/-- Claim C10: a sync run marks every module dirty while touching no
module's value, hasValue, brightness or power (its flush transmits exactly
the startup frames), and never saves or dirty-marks the persistent store,
which it returns unchanged. -/
theorem sync_marks_dirty_only (cfg : Config) (p : String) :
    (run cfg [p, "sync"]).store = cfg ∧
    (run cfg [p, "sync"]).trace.any isStoreSave = false ∧
    (run cfg [p, "sync"]).trace.any isFileWrite = false ∧
    (run cfg [p, "sync"]).trace.any isStoreMarkDirty = false ∧
    Event.markAllDirty ∈ (run cfg [p, "sync"]).trace ∧
    (setDirty (startupChain cfg)).all (fun m => m.dirty) = true ∧
    framesOf (setDirty (startupChain cfg)) = framesOf (startupChain cfg) ∧
    (run cfg [p, "sync"]).bus = [framesOf (startupChain cfg)] := by
  have hr : execCmd cfg (startupChain cfg) (parseCmd (stripVerbose [p, "sync"])) =
      { store := cfg, chain := setDirty (startupChain cfg),
        events := [Event.markAllDirty], ok := true } := rfl
  have htr : (run cfg [p, "sync"]).trace =
      startupEvents cfg ++ ([Event.markAllDirty] ++ [Event.flush]) := by
    simp [run, hr]
  have hmemfact : ∀ e ∈ (run cfg [p, "sync"]).trace,
      isStoreSave e = false ∧ isFileWrite e = false ∧ isStoreMarkDirty e = false := by
    intro e he
    rcases run_trace_mem cfg [p, "sync"] e he with h | h | h
    · exact ⟨(startupEvents_quiet cfg e h).2.1, (startupEvents_quiet cfg e h).2.2.1,
        (startupEvents_quiet cfg e h).2.2.2.1⟩
    · rw [hr] at h
      rcases List.mem_singleton.mp h with rfl
      exact ⟨rfl, rfl, rfl⟩
    · subst h
      exact ⟨rfl, rfl, rfl⟩
  have hbus : (run cfg [p, "sync"]).bus = [framesOf (setDirty (startupChain cfg))] := by
    simp [run, hr]
  refine ⟨by simp [run, hr],
    List.any_eq_false.mpr (fun e he => by simp [(hmemfact e he).1]),
    List.any_eq_false.mpr (fun e he => by simp [(hmemfact e he).2.1]),
    List.any_eq_false.mpr (fun e he => by simp [(hmemfact e he).2.2]),
    ?_, setDirty_all_dirty _, framesOf_setDirty _, ?_⟩
  · rw [htr]
    simp
  · rw [hbus, framesOf_setDirty]
